import Mathlib

/-!
Shallow embedding of `src/rapidchange_atc.c` (RapidChange ATC plugin for
grblHAL) and proofs about its tool-change sequencing logic.

Modelling conventions:
* C `float` values (machine coordinates, feed rates, RPM) are embedded as
  exact rationals `Rat`; the claims under scrutiny are about the formulas
  the code computes, not about rounding.
* `coord_data_t` (an `N_AXIS` array of floats, axes X=0, Y=1, Z=2) is
  embedded as `List Rat` of length 3.
* The external collaborators (motion queue, probe system, tool-presence
  input, abort flag) are oracles: functions from a call counter to the
  value the collaborator returns at that call.  Each call consumes one
  counter step, so an execution is fully determined by the oracles.
* Side effects visible to collaborators (enqueued lines, spindle and
  coolant commands, digital output writes, probe cycles, feed-hold
  pauses, operator warnings, reports) are recorded in an action trace.
-/

namespace RATC

/-- A machine coordinate vector, axes X=0, Y=1, Z=2 (`coord_data_t`). -/
def Coord : Type := List Rat

instance : DecidableEq Coord := by
  unfold Coord
  infer_instance

/-- Read axis `i` of a coordinate vector. -/
def axisGet (c : Coord) (i : Nat) : Rat := List.getD c i 0

/-- Write axis `i` of a coordinate vector. -/
def axisSet (c : Coord) (i : Nat) (v : Rat) : Coord := List.set c i v

/-- `tool_data_t`: per-axis offsets, radius and the tool id
(0 means "no tool"). -/
structure Tool where
  offset : Coord
  radius : Rat
  tool_id : Nat
deriving DecidableEq

/-- The fields of `atc_settings_t` that the sequencing logic reads.
`alignment` and `direction` are the stored radio-button indices
(`alignment`: 0 = X axis, 1 = Y axis; `direction`: 0 = positive,
1 = negative).  `dust_cover`: 0 disabled, 1 axis mode, 2 port mode. -/
structure AtcSettings where
  alignment : Nat
  direction : Nat
  number_of_pockets : Nat
  pocket_offset : Rat
  x_pocket_1 : Rat
  y_pocket_1 : Rat
  z_start : Rat
  z_retract : Rat
  z_engage : Rat
  z_traverse : Rat
  z_safe_clearance : Rat
  engage_feed_rate : Rat
  load_rpm : Rat
  unload_rpm : Rat
  spindle_ramp_time : Nat
  tool_setter : Bool
  tool_setter_x : Rat
  tool_setter_y : Rat
  tool_setter_z_seek_start : Rat
  tool_setter_seek_feed_rate : Rat
  tool_setter_set_feed_rate : Rat
  tool_setter_max_travel : Rat
  tool_setter_seek_retreat : Rat
  tool_recognition : Bool
  tool_recognition_z_zone_1 : Rat
  tool_recognition_z_zone_2 : Rat
  dust_cover : Nat
  dust_cover_axis : Nat
  dust_cover_axis_open : Rat
  dust_cover_axis_close : Rat
  dust_cover_port : Nat
deriving DecidableEq

/-- `tool_id - 1` computed in `uint32_t` arithmetic (`tool_id_t` is a
32-bit unsigned integer, so `0 - 1` wraps). -/
def toolIdMinusOne (tool_id : Nat) : Nat :=
  (tool_id + 4294967295) % 4294967296

/-- `calculate_tool_pos`: pocket-1 position offset by
`(tool_id - 1) * pocket_offset * multiplier` along the alignment axis. -/
def calculate_tool_pos (atc : AtcSettings) (tool_id : Nat) : Coord :=
  let multiplier : Int := if atc.direction ≠ 0 then -1 else 1
  let tool_offset : Rat :=
    ((toolIdMinusOne tool_id : Nat) : Rat) * atc.pocket_offset * (multiplier : Rat)
  let t : Coord := [atc.x_pocket_1, atc.y_pocket_1, 0]
  if atc.alignment = 0 then
    axisSet t 0 (atc.x_pocket_1 + tool_offset)
  else if atc.alignment = 1 then
    axisSet t 1 (atc.y_pocket_1 + tool_offset)
  else
    t

/-- `get_manual_pos`: the fixed manual / tool-setter position. -/
def get_manual_pos (atc : AtcSettings) : Coord :=
  [atc.tool_setter_x, atc.tool_setter_y, 0]

/-- `tool_has_pocket`: a nonzero id no greater than the pocket count. -/
def tool_has_pocket (atc : AtcSettings) (tool_id : Nat) : Bool :=
  tool_id ≠ 0 && tool_id ≤ atc.number_of_pockets

/-- `get_tool_pos`: pocket position when the tool has a pocket, the
manual position otherwise. -/
def get_tool_pos (atc : AtcSettings) (tool_id : Nat) : Coord :=
  if tool_has_pocket atc tool_id then
    calculate_tool_pos atc tool_id
  else
    get_manual_pos atc

/-- One externally visible side effect of the sequencer. -/
inductive Action where
  | line (target : Coord) (rapid : Bool) (feed : Rat)
  | sync (ok : Bool)
  | spindle (isOn : Bool) (ccw : Bool) (rpm : Rat)
  | spindleAllOff
  | coolantOff
  | delayMs (ms : Nat)
  | digitalOut (port : Nat) (value : Bool)
  | probe (target : Coord) (feed : Rat) (found : Bool)
  | pauseHold
  | warning
  | setToolOffsetCancel
  | setToolOffsetDynamic (z : Rat)
  | reportTLOReference
  | feedbackTLOEstablished
  | syncPosition
  | coolantSync
  | spindleRestore
deriving DecidableEq

/-- Oracles for the external collaborators: the value each one returns
at its `n`-th call within a run.  `noRestoreAfterM6` is the grbl core
setting `settings.flags.no_restore_position_after_M6`. -/
structure Env where
  mcLineOk : Nat → Bool
  syncOk : Nat → Bool
  hasTool : Nat → Bool
  probeFound : Nat → Bool
  probeZ : Nat → Rat
  abortedFlag : Nat → Bool
  noRestoreAfterM6 : Bool

/-- The mutable state the plugin reads and writes: the file-static
globals (`target`, `previous`, `current_tool`, `next_tool`), the grbl
core state it touches (`sys.position`, `sys.probe_position`,
`sys.tlo_reference`, the applied tool length offset, `sys.homed`),
oracle call counters and the action trace. -/
structure MState where
  target : Coord
  previous : Coord
  machine_pos : Coord
  probe_position : Coord
  current_tool : Tool
  next_tool : Option Tool
  homed_mask : Nat
  tlo_reference_z : Rat
  tlo_reference_set_z : Bool
  tool_offset_z : Rat
  nLine : Nat
  nSync : Nat
  nHasTool : Nat
  nProbe : Nat
  nAbort : Nat
  trace : List Action
deriving DecidableEq

/-- `protocol_buffer_synchronize`: wait for the motion queue to drain;
`false` signals an abort occurred while draining. -/
def protocol_buffer_synchronize (env : Env) (s : MState) : Bool × MState :=
  let ok := env.syncOk s.nSync
  (ok, { s with nSync := s.nSync + 1, trace := s.trace ++ [Action.sync ok] })

/-- `mc_line`: enqueue a straight-line move to `tgt`; `false` means the
move was rejected. -/
def mc_line (env : Env) (s : MState) (tgt : Coord) (rapid : Bool) (feed : Rat) :
    Bool × MState :=
  let ok := env.mcLineOk s.nLine
  (ok, { s with nLine := s.nLine + 1, trace := s.trace ++ [Action.line tgt rapid feed] })

/-- `mc_probe_cycle`: run a probe cycle toward `tgt`; on contact the
probe system records the contact position in `sys.probe_position`. -/
def mc_probe_cycle (env : Env) (s : MState) (tgt : Coord) (feed : Rat) :
    Bool × MState :=
  let found := env.probeFound s.nProbe
  let pz := env.probeZ s.nProbe
  let s1 := { s with nProbe := s.nProbe + 1,
                     trace := s.trace ++ [Action.probe tgt feed found] }
  (found, if found then { s1 with probe_position := axisSet tgt 2 pz } else s1)

/-- `rapid_to_tool_setter_xy`. -/
def rapid_to_tool_setter_xy (atc : AtcSettings) (env : Env) (s : MState) :
    Bool × MState :=
  let s1 := { s with target := axisSet (axisSet s.target 0 atc.tool_setter_x) 1 atc.tool_setter_y }
  let r := mc_line env s1 s1.target true 0
  if r.1 then protocol_buffer_synchronize env r.2 else (false, r.2)

/-- `rapid_to_pocket_xy`. -/
def rapid_to_pocket_xy (atc : AtcSettings) (env : Env) (s : MState) (tool_id : Nat) :
    Bool × MState :=
  let tool := get_tool_pos atc tool_id
  let s1 := { s with target := axisSet (axisSet s.target 0 (axisGet tool 0)) 1 (axisGet tool 1) }
  let r := mc_line env s1 s1.target true 0
  if r.1 then protocol_buffer_synchronize env r.2 else (false, r.2)

/-- `rapid_to_z`. -/
def rapid_to_z (env : Env) (s : MState) (position : Rat) : Bool × MState :=
  let s1 := { s with target := axisSet s.target 2 position }
  let r := mc_line env s1 s1.target true 0
  if r.1 then protocol_buffer_synchronize env r.2 else (false, r.2)

/-- `linear_to_z`: feed move, deliberately not synchronized. -/
def linear_to_z (env : Env) (s : MState) (position : Rat) (feed_rate : Rat) :
    Bool × MState :=
  let s1 := { s with target := axisSet s.target 2 position }
  mc_line env s1 s1.target false feed_rate

/-- `spin_cw`: spindle on forward, then ramp-settle delay. -/
def spin_cw (atc : AtcSettings) (s : MState) (speed : Rat) : MState :=
  { s with trace := s.trace ++ [Action.spindle true false speed, Action.delayMs atc.spindle_ramp_time] }

/-- `spin_ccw`: spindle on reverse, then ramp-settle delay. -/
def spin_ccw (atc : AtcSettings) (s : MState) (speed : Rat) : MState :=
  { s with trace := s.trace ++ [Action.spindle true true speed, Action.delayMs atc.spindle_ramp_time] }

/-- `spin_stop`: spindle off, then ramp-settle delay. -/
def spin_stop (atc : AtcSettings) (s : MState) : MState :=
  { s with trace := s.trace ++ [Action.spindle false false 0, Action.delayMs atc.spindle_ramp_time] }

/-- `spindle_has_tool`: immediate read of the tool-recognition input. -/
def spindle_has_tool (env : Env) (s : MState) : Bool × MState :=
  (env.hasTool s.nHasTool, { s with nHasTool := s.nHasTool + 1 })

/-- `pause`: request feed hold and yield to the realtime executor. -/
def pause (s : MState) : MState :=
  { s with trace := s.trace ++ [Action.pauseHold] }

/-- `protocol_enqueue_foreground_task(report_warning, ...)`. -/
def report_warning_task (s : MState) : MState :=
  { s with trace := s.trace ++ [Action.warning] }

/-- `gc_set_tool_offset(ToolLengthOffset_Cancel, 0, 0.0f)`. -/
def gc_set_tool_offset_cancel (s : MState) : MState :=
  { s with tool_offset_z := 0, trace := s.trace ++ [Action.setToolOffsetCancel] }

/-- `gc_set_tool_offset(ToolLengthOffset_EnableDynamic, Z_AXIS, v)`. -/
def gc_set_tool_offset_dynamic (s : MState) (v : Rat) : MState :=
  { s with tool_offset_z := v, trace := s.trace ++ [Action.setToolOffsetDynamic v] }

/-- `open_dust_cover_axis`: set the dust-cover axis coordinate of the
global target and issue a rapid move, then drain the queue.  The
conditional mirrors source line 517 verbatim: both arms of the C
conditional expression read `atc.dust_cover_axis_open`. -/
def open_dust_cover_axis (atc : AtcSettings) (env : Env) (s : MState) (opn : Bool) :
    Bool × MState :=
  let s1 := { s with target := axisSet s.target atc.dust_cover_axis
                       (if opn then atc.dust_cover_axis_open else atc.dust_cover_axis_open) }
  let r := mc_line env s1 s1.target true 0
  if r.1 then protocol_buffer_synchronize env r.2 else (false, r.2)

/-- `open_dust_cover_output`: toggle the output port, wait 1000 ms. -/
def open_dust_cover_output (atc : AtcSettings) (s : MState) (opn : Bool) : MState :=
  { s with trace := s.trace ++ [Action.digitalOut atc.dust_cover_port opn, Action.delayMs 1000] }

/-- `open_dust_cover`: dispatch on the configured mode. -/
def open_dust_cover (atc : AtcSettings) (env : Env) (s : MState) (opn : Bool) :
    Bool × MState :=
  if atc.dust_cover = 0 then
    (true, s)
  else if atc.dust_cover = 2 then
    (true, open_dust_cover_output atc s opn)
  else
    open_dust_cover_axis atc env s opn

/-- `record_program_state`: spindle and coolant off, save the current
machine position with the active Z tool offset subtracted, seed the
working target from it. -/
def record_program_state (s : MState) : MState :=
  let s1 := { s with trace := s.trace ++ [Action.spindleAllOff, Action.coolantOff] }
  let prev := axisSet s1.machine_pos 2 (axisGet s1.machine_pos 2 - s1.tool_offset_z)
  { s1 with previous := prev, target := prev }

/-- `restore`: rapid to safe clearance, optionally rapid back over the
recorded XY, drain, resynchronize, restore coolant and spindle modal
state, optionally descend to the recorded position, drain again; the
result is `!ABORTED`. -/
def restore (atc : AtcSettings) (env : Env) (s : MState) : Bool × MState :=
  let s1 := { s with target := axisSet s.target 2 atc.z_safe_clearance }
  let s2 := (mc_line env s1 s1.target true 0).2
  let s3 :=
    if env.noRestoreAfterM6 then s2
    else
      let s' := { s2 with target := axisSet s2.previous 2 atc.z_safe_clearance }
      (mc_line env s' s'.target true 0).2
  let r1 := protocol_buffer_synchronize env s3
  let s4 :=
    if r1.1 then
      let sA := { r1.2 with trace := r1.2.trace ++
                    [Action.syncPosition, Action.coolantSync, Action.spindleRestore] }
      if env.noRestoreAfterM6 then sA
      else
        let prev := axisSet sA.previous 2 (axisGet sA.previous 2 + sA.tool_offset_z)
        let sB := { sA with previous := prev }
        (mc_line env sB sB.previous true 0).2
    else r1.2
  let r2 := protocol_buffer_synchronize env s4
  let s5 :=
    if r2.1 then { r2.2 with trace := r2.2.trace ++ [Action.syncPosition] } else r2.2
  (!(env.abortedFlag s5.nAbort), { s5 with nAbort := s5.nAbort + 1 })

/-- `restore_program_state`: nothing to do when no tool is loaded,
otherwise refresh the target from the machine position and restore. -/
def restore_program_state (atc : AtcSettings) (env : Env) (s : MState) :
    Bool × MState :=
  if s.current_tool.tool_id = 0 then
    (true, s)
  else
    let s1 := { s with target := s.machine_pos }
    restore atc env s1

/-- `set_tool_change_state`: drain the queue and resynchronize. -/
def set_tool_change_state (env : Env) (s : MState) : MState :=
  let r := protocol_buffer_synchronize env s
  { r.2 with trace := r.2.trace ++ [Action.syncPosition] }

/-- After unload: clear the current tool id and cancel the length
offset (source lines 698-701). -/
def finish_unload (s : MState) : MState :=
  gc_set_tool_offset_cancel
    { s with current_tool := { s.current_tool with tool_id := 0 } }

/-- `unload_tool`: rapid to safe clearance, then, when a tool with a
pocket is loaded, the pocket drop-off motion with the optional
tool-recognition retry, or a manual-removal pause for pocketless
tools. -/
def unload_tool (atc : AtcSettings) (env : Env) (s : MState) : Bool × MState :=
  let r0 := rapid_to_z env s atc.z_safe_clearance
  if !r0.1 then (false, r0.2) else
  let s0 := r0.2
  if s0.current_tool.tool_id = 0 then (true, s0) else
  if tool_has_pocket atc s0.current_tool.tool_id then
    let r1 := rapid_to_pocket_xy atc env s0 s0.current_tool.tool_id
    if !r1.1 then (false, r1.2) else
    let r2 := rapid_to_z env r1.2 (atc.z_engage + atc.z_start)
    if !r2.1 then (false, r2.2) else
    let s2 := spin_ccw atc r2.2 atc.unload_rpm
    let r3 := linear_to_z env s2 atc.z_engage atc.engage_feed_rate
    if !r3.1 then (false, r3.2) else
    if atc.tool_recognition then
      let r4 := rapid_to_z env r3.2 atc.tool_recognition_z_zone_1
      if !r4.1 then (false, r4.2) else
      let h1 := spindle_has_tool env r4.2
      let retry : Bool × MState :=
        if h1.1 then
          let r5 := rapid_to_z env h1.2 (atc.z_engage + atc.z_start)
          if !r5.1 then (false, r5.2) else
          let r6 := linear_to_z env r5.2 atc.z_engage atc.engage_feed_rate
          if !r6.1 then (false, r6.2) else
          let r7 := rapid_to_z env r6.2 atc.tool_recognition_z_zone_1
          if !r7.1 then (false, r7.2) else (true, r7.2)
        else (true, h1.2)
      if !retry.1 then (false, retry.2) else
      let s7 := spin_stop atc retry.2
      let h2 := spindle_has_tool env s7
      let afterRec : Bool × MState :=
        if h2.1 then
          let r8 := rapid_to_z env h2.2 atc.z_safe_clearance
          if !r8.1 then (false, r8.2) else
          (true, pause (report_warning_task r8.2))
        else
          let r9 := rapid_to_z env h2.2 atc.z_traverse
          if !r9.1 then (false, r9.2) else (true, r9.2)
      if !afterRec.1 then (false, afterRec.2) else
      (true, finish_unload afterRec.2)
    else
      let r10 := rapid_to_z env r3.2 atc.z_traverse
      if !r10.1 then (false, r10.2) else
      (true, finish_unload (spin_stop atc r10.2))
  else
    (true, finish_unload (pause (report_warning_task s0)))

/-- `memcpy(&current_tool, next_tool, sizeof(tool_data_t))`.  The C
code only executes this with `next_tool != NULL`. -/
def commit_next_tool (s : MState) : MState :=
  { s with current_tool := s.next_tool.getD s.current_tool }

/-- `load_tool`: pocket pick-up motion with the optional two-zone
tool-recognition check, or a manual-load pause; finally drain the queue
and, only when the drain succeeded, commit the pending tool as
current.  The function returns `true` in every non-rejected path,
regardless of the final drain result. -/
def load_tool (atc : AtcSettings) (env : Env) (s : MState) (tool_id : Nat) :
    Bool × MState :=
  if tool_id = 0 then
    (true, commit_next_tool s)
  else
  let body : Bool × MState :=
    if tool_has_pocket atc tool_id then
      let r1 := rapid_to_pocket_xy atc env s tool_id
      if !r1.1 then (false, r1.2) else
      let r2 := rapid_to_z env r1.2 (atc.z_engage + atc.z_start)
      if !r2.1 then (false, r2.2) else
      let s2 := spin_cw atc r2.2 atc.load_rpm
      let r3 := linear_to_z env s2 atc.z_engage atc.engage_feed_rate
      if !r3.1 then (false, r3.2) else
      let r4 := rapid_to_z env r3.2 (atc.z_engage + atc.z_retract)
      if !r4.1 then (false, r4.2) else
      let r5 := linear_to_z env r4.2 atc.z_engage atc.engage_feed_rate
      if !r5.1 then (false, r5.2) else
      if atc.tool_recognition then
        let r6 := rapid_to_z env r5.2 atc.tool_recognition_z_zone_1
        if !r6.1 then (false, r6.2) else
        let s6 := spin_stop atc r6.2
        let h1 := spindle_has_tool env s6
        if !h1.1 then
          let r7 := rapid_to_z env h1.2 atc.z_safe_clearance
          if !r7.1 then (false, r7.2) else
          (true, pause (report_warning_task r7.2))
        else
          let r8 := rapid_to_z env h1.2 atc.tool_recognition_z_zone_2
          if !r8.1 then (false, r8.2) else
          let h2 := spindle_has_tool env r8.2
          if h2.1 then
            let r9 := rapid_to_z env h2.2 atc.z_safe_clearance
            if !r9.1 then (false, r9.2) else
            (true, pause (report_warning_task r9.2))
          else (true, h2.2)
      else
        let r10 := rapid_to_z env r5.2 atc.z_traverse
        if !r10.1 then (false, r10.2) else
        (true, spin_stop atc r10.2)
    else
      let r11 := rapid_to_z env s atc.z_safe_clearance
      if !r11.1 then (false, r11.2) else
      (true, pause r11.2)
  if !body.1 then (false, body.2) else
  let rs := protocol_buffer_synchronize env body.2
  if rs.1 then
    (true, commit_next_tool { rs.2 with trace := rs.2.trace ++ [Action.syncPosition] })
  else
    (true, rs.2)

/-- `set_tool`: the tool-length measurement.  Skipped (rise to safe
clearance only) when the tool setter is disabled or no tool is loaded;
otherwise the two-stage probe with TLO-reference latch on first
success and dynamic offset application afterwards. -/
def set_tool (atc : AtcSettings) (env : Env) (s : MState) : Bool × MState :=
  if !atc.tool_setter || s.current_tool.tool_id = 0 then
    let r := rapid_to_z env s atc.z_safe_clearance
    if !r.1 then (false, r.2) else (true, r.2)
  else
  let r1 := rapid_to_z env s atc.z_safe_clearance
  if !r1.1 then (false, r1.2) else
  let r2 := rapid_to_tool_setter_xy atc env r1.2
  if !r2.1 then (false, r2.2) else
  let r3 := rapid_to_z env r2.2 atc.tool_setter_z_seek_start
  if !r3.1 then (false, r3.2) else
  let s3 := r3.2
  let s4 := { s3 with target := axisSet s3.target 2 (axisGet s3.target 2 - atc.tool_setter_max_travel) }
  let p1 := mc_probe_cycle env s4 s4.target atc.tool_setter_seek_feed_rate
  let afterProbe : Bool × MState :=
    if p1.1 then
      let sA := { p1.2 with target := p1.2.probe_position }
      let sB := { sA with target := axisSet sA.target 2 (axisGet sA.target 2 + atc.tool_setter_seek_retreat) }
      let rl := mc_line env sB sB.target false atc.tool_setter_seek_feed_rate
      if rl.1 then
        let slowTarget := axisSet rl.2.target 2 (axisGet rl.2.target 2 - (atc.tool_setter_seek_retreat + 2))
        let sC := { rl.2 with target := slowTarget }
        mc_probe_cycle env sC sC.target atc.tool_setter_set_feed_rate
      else (false, rl.2)
    else (false, p1.2)
  let s5 := afterProbe.2
  let s6 :=
    if afterProbe.1 then
      if !s5.tlo_reference_set_z then
        { s5 with tlo_reference_z := axisGet s5.probe_position 2,
                  tlo_reference_set_z := true,
                  trace := s5.trace ++ [Action.reportTLOReference, Action.feedbackTLOEstablished] }
      else
        gc_set_tool_offset_dynamic s5 (axisGet s5.probe_position 2 - s5.tlo_reference_z)
    else s5
  if afterProbe.1 then
    let r4 := rapid_to_z env s6 atc.z_safe_clearance
    if !r4.1 then (false, r4.2) else (true, r4.2)
  else (false, s6)

/-- The status codes `tool_change` can return. -/
inductive Status where
  | ok
  | gcodeToolError
  | homingRequired
deriving DecidableEq

/-- `tool_change`: the orchestrator run on an M6 command. -/
def tool_change (atc : AtcSettings) (env : Env) (s : MState) : Status × MState :=
  match s.next_tool with
  | none => (Status.gcodeToolError, s)
  | some nt =>
    if s.current_tool.tool_id = nt.tool_id then (Status.ok, s) else
    if (s.homed_mask &&& 7) ≠ 7 then (Status.homingRequired, s) else
    let s1 := (protocol_buffer_synchronize env s).2
    let s2 := record_program_state s1
    let s3 := set_tool_change_state env s2
    let rc := open_dust_cover atc env s3 true
    if !rc.1 then (Status.gcodeToolError, rc.2) else
    let ru := unload_tool atc env rc.2
    if !ru.1 then (Status.gcodeToolError, ru.2) else
    let rl := load_tool atc env ru.2 nt.tool_id
    if !rl.1 then (Status.gcodeToolError, rl.2) else
    let rst := set_tool atc env rl.2
    if !rst.1 then (Status.gcodeToolError, rst.2) else
    let rc2 := open_dust_cover atc env rst.2 false
    if !rc2.1 then (Status.gcodeToolError, rc2.2) else
    let rr := restore_program_state atc env rc2.2
    if !rr.1 then (Status.gcodeToolError, rr.2) else
    (Status.ok, rr.2)

/-- State touched by the reset handler.  `heap` maps tool-record
locations to their contents; `next_tool` holds the location the
`next_tool` pointer refers to (none when the pointer is NULL) and
`gc_tool` the location `gc_state.tool` refers to.  `n_tools` is
`grbl.tool_table.n_tools`. -/
structure RState where
  current_tool : Tool
  next_tool : Option Nat
  heap : Nat → Tool
  gc_tool : Nat
  tool_pending : Nat
  n_tools : Nat
  rt_report_tool : Bool
  driver_reset_called : Bool

/-- The plugin's `reset` handler: when a change is in flight, write the
saved current tool back over the host's tool record, report it, reset
`gc_state.tool_pending` from the host record, clear the pending
pointer; always chain to the previously registered handler. -/
def reset (s : RState) : RState :=
  let s1 :=
    match s.next_tool with
    | none => s
    | some p =>
      let s' :=
        if s.current_tool.tool_id ≠ (s.heap p).tool_id then
          if s.n_tools ≠ 0 then
            { s with heap := Function.update s.heap s.gc_tool s.current_tool,
                     rt_report_tool := true }
          else
            { s with heap := Function.update s.heap p s.current_tool,
                     rt_report_tool := true }
        else s
      { s' with tool_pending := (s'.heap s'.gc_tool).tool_id, next_tool := none }
  { s1 with driver_reset_called := true }

/-- Counts plunge moves at the engage feed rate (the "seat" motion). -/
def isEngagePlunge (atc : AtcSettings) (a : Action) : Bool :=
  match a with
  | Action.line _ r f => !r && (f == atc.engage_feed_rate)
  | _ => false

/-- A tool record with the given id and zero offsets. -/
def toolWithId (n : Nat) : Tool :=
  { offset := [0, 0, 0], radius := 0, tool_id := n }

/-- Benign environment: every move accepted, every drain clean, no tool
seen by the sensor, probes always find contact at Z = -42. -/
def envAllOk : Env :=
  { mcLineOk := fun _ => true
    syncOk := fun _ => true
    hasTool := fun _ => false
    probeFound := fun _ => true
    probeZ := fun _ => -42
    abortedFlag := fun _ => false
    noRestoreAfterM6 := false }

/-- Concrete settings: X-aligned magazine, positive direction, 6 pockets
at 45 mm pitch from X = 0, distinct Z levels. -/
def atcBase : AtcSettings :=
  { alignment := 0
    direction := 0
    number_of_pockets := 6
    pocket_offset := 45
    x_pocket_1 := 0
    y_pocket_1 := 0
    z_start := 23
    z_retract := 13
    z_engage := -10
    z_traverse := -20
    z_safe_clearance := -5
    engage_feed_rate := 1800
    load_rpm := 1200
    unload_rpm := 1200
    spindle_ramp_time := 500
    tool_setter := false
    tool_setter_x := 100
    tool_setter_y := 200
    tool_setter_z_seek_start := -12
    tool_setter_seek_feed_rate := 300
    tool_setter_set_feed_rate := 60
    tool_setter_max_travel := 50
    tool_setter_seek_retreat := 2
    tool_recognition := false
    tool_recognition_z_zone_1 := -30
    tool_recognition_z_zone_2 := -40
    dust_cover := 0
    dust_cover_axis := 1
    dust_cover_axis_open := 100
    dust_cover_axis_close := 0
    dust_cover_port := 3 }

/-- Concrete initial state: no tool, no pending tool, homed, no TLO. -/
def stBase : MState :=
  { target := [0, 0, 0]
    previous := [0, 0, 0]
    machine_pos := [10, 20, 30]
    probe_position := [0, 0, 0]
    current_tool := toolWithId 0
    next_tool := none
    homed_mask := 7
    tlo_reference_z := 0
    tlo_reference_set_z := false
    tool_offset_z := 0
    nLine := 0
    nSync := 0
    nHasTool := 0
    nProbe := 0
    nAbort := 0
    trace := [] }

/-- Settings with the dust cover in axis mode. -/
def atcDustAxis : AtcSettings := { atcBase with dust_cover := 1 }

/-- Settings with the tool setter enabled. -/
def atcSetter : AtcSettings := { atcBase with tool_setter := true }

/-- Settings with tool recognition enabled. -/
def atcRecog : AtcSettings := { atcBase with tool_recognition := true }

/-- State with tool 3 currently loaded. -/
def stTool3 : MState := { stBase with current_tool := toolWithId 3 }

/-- State whose pending tool equals the current tool (both id 0). -/
def stSame : MState := { stBase with next_tool := some (toolWithId 0) }

/-- State with no current tool and tool 2 pending. -/
def stNext2 : MState := { stBase with next_tool := some (toolWithId 2) }

/-- Environment whose tool-presence sensor always reports a tool. -/
def envToolStuck : Env := { envAllOk with hasTool := fun _ => true }

/-- Environment whose probe never finds contact. -/
def envProbeFail : Env := { envAllOk with probeFound := fun _ => false }

/-- Environment where the 5th and later queue drains signal an abort. -/
def envSyncFail4 : Env := { envAllOk with syncOk := fun n => decide (n < 4) }

/-- Concrete reset-handler state: tool 3 was current, a change to
tool 5 in flight (`next_tool` points at location 0, whose record is
tool 5), `gc_state.tool` at location 1, a tool table present. -/
def rstBase : RState :=
  { current_tool := toolWithId 3
    next_tool := some 0
    heap := fun _ => toolWithId 5
    gc_tool := 1
    tool_pending := 5
    n_tools := 8
    rt_report_tool := false
    driver_reset_called := false }

/-- Environment whose tool-presence sensor reports a tool only on the
first sample: the first unload attempt leaves the tool in place, the
retry removes it. -/
def envRetryOnce : Env := { envAllOk with hasTool := fun n => decide (n = 0) }

/-- The concrete action trace of the one-retry, no-pause unload at
`atcRecog` from `stTool3` (pocket 3 at X = 90). -/
def unloadRetryTraceC5 : List Action :=
  [Action.line [0, 0, -5] true 0, Action.sync true,
   Action.line [90, 0, -5] true 0, Action.sync true,
   Action.line [90, 0, 13] true 0, Action.sync true,
   Action.spindle true true 1200, Action.delayMs 500,
   Action.line [90, 0, -10] false 1800,
   Action.line [90, 0, -30] true 0, Action.sync true,
   Action.line [90, 0, 13] true 0, Action.sync true,
   Action.line [90, 0, -10] false 1800,
   Action.line [90, 0, -30] true 0, Action.sync true,
   Action.spindle false false 0, Action.delayMs 500,
   Action.line [90, 0, -20] true 0, Action.sync true,
   Action.setToolOffsetCancel]

/-- C10: when the current tool id is 0 after loading, the restore phase
returns success immediately, leaves the state untouched (no motion
enqueued, no coolant or spindle modal restore), so spindle and coolant
stay off. -/
theorem restore_program_state_no_tool (atc : AtcSettings) (env : Env) (s : MState)
    (h : s.current_tool.tool_id = 0) :
    restore_program_state atc env s = (true, s) := by
  simp [restore_program_state, h]

/-- Witness for `restore_program_state_no_tool` at the concrete no-tool
state. -/
theorem restore_program_state_no_tool_witness :
    stBase.current_tool.tool_id = 0 ∧
    restore_program_state atcBase envAllOk stBase = (true, stBase) :=
  ⟨by decide, restore_program_state_no_tool atcBase envAllOk stBase (by decide)⟩

/-- C7: requesting a change whose pending tool id equals the current
tool id returns `Status_OK` with the state (trace included) completely
unchanged: zero motion, no spindle, cover, probe or state-save action,
in every machine state. -/
theorem tool_change_idempotent (atc : AtcSettings) (env : Env) (s : MState)
    (nt : Tool) (hnext : s.next_tool = some nt)
    (heq : s.current_tool.tool_id = nt.tool_id) :
    tool_change atc env s = (Status.ok, s) := by
  simp [tool_change, hnext, heq]

/-- Witness for `tool_change_idempotent` at a concrete state whose
pending tool equals the current tool. -/
theorem tool_change_idempotent_witness :
    tool_change atcBase envAllOk stSame = (Status.ok, stSame) :=
  tool_change_idempotent atcBase envAllOk stSame (toolWithId 0) (by decide) (by decide)

/-- C1 (code bug at source line 517): in axis mode, closing the dust
cover enqueues a rapid move of the dust-cover axis to the configured
OPEN position, not the close position.  At the concrete settings
(axis Y, open = 100, close = 0) the enqueued target carries 100 on the
dust-cover axis even though `open = false` was requested. -/
theorem open_dust_cover_close_goes_to_open_position :
    (open_dust_cover atcDustAxis envAllOk stBase false).1 = true ∧
    (open_dust_cover atcDustAxis envAllOk stBase false).2.trace =
      [Action.line [0, 100, 0] true 0, Action.sync true] ∧
    atcDustAxis.dust_cover_axis_open = 100 ∧
    atcDustAxis.dust_cover_axis_close = 0 ∧
    axisGet [(0 : Rat), 100, 0] atcDustAxis.dust_cover_axis ≠
      atcDustAxis.dust_cover_axis_close := by
  decide

/-- C9 (amended): with no tool loaded, `unload_tool` performs exactly
the initial rapid move to safe clearance shared by every unload
invocation and nothing else: no spindle command, no pause, no tool
state change, and it reports success (provided that single move is
accepted and drains cleanly). -/
theorem unload_tool_no_tool_spec (atc : AtcSettings) (env : Env) (s : MState)
    (h0 : s.current_tool.tool_id = 0)
    (hline : env.mcLineOk s.nLine = true)
    (hsync : env.syncOk s.nSync = true) :
    unload_tool atc env s =
      (true,
        { s with target := axisSet s.target 2 atc.z_safe_clearance,
                 nLine := s.nLine + 1,
                 nSync := s.nSync + 1,
                 trace := s.trace ++
                   [Action.line (axisSet s.target 2 atc.z_safe_clearance) true 0,
                    Action.sync true] }) := by
  simp [unload_tool, rapid_to_z, mc_line, protocol_buffer_synchronize, hline, hsync, h0]

/-- Witness for `unload_tool_no_tool_spec` at the concrete no-tool
state. -/
theorem unload_tool_no_tool_spec_witness :
    unload_tool atcBase envAllOk stBase =
      (true,
        { stBase with target := axisSet stBase.target 2 atcBase.z_safe_clearance,
                      nLine := stBase.nLine + 1,
                      nSync := stBase.nSync + 1,
                      trace := stBase.trace ++
                        [Action.line (axisSet stBase.target 2 atcBase.z_safe_clearance) true 0,
                         Action.sync true] }) :=
  unload_tool_no_tool_spec atcBase envAllOk stBase (by decide) rfl rfl

/-- C9 counterexample to the literal claim: even with no tool loaded,
`unload_tool` does enqueue motion (the rapid to safe clearance). -/
theorem unload_tool_no_tool_moves :
    (unload_tool atcBase envAllOk stBase).1 = true ∧
    (unload_tool atcBase envAllOk stBase).2.trace ≠ [] ∧
    Action.line [0, 0, -5] true 0 ∈ (unload_tool atcBase envAllOk stBase).2.trace := by
  decide

/-- The `uint32_t` decrement does not wrap for ids between 1 and the
pocket-count bound. -/
theorem toolIdMinusOne_eq (tool_id : Nat) (h1 : 1 ≤ tool_id)
    (h2 : tool_id ≤ 4294967295) : toolIdMinusOne tool_id = tool_id - 1 := by
  unfold toolIdMinusOne
  have h : tool_id + 4294967295 = (tool_id - 1) + 4294967296 := by omega
  rw [h, Nat.add_mod_right, Nat.mod_eq_of_lt (by omega)]

/-- C2: for ids 1..N the position lies on the alignment axis at
`pocket1 + (id-1)*pitch*direction` (direction +1 when the setting is
positive, -1 when negative) with the other axis at pocket-1's value;
for id 0 or id > N it is the fixed manual/tool-setter position
`[tool_setter_x, tool_setter_y, 0]`, independent of pitch and
direction.  The pocket-count bound reflects the `uint8_t` storage of
the setting. -/
theorem get_tool_pos_spec (atc : AtcSettings) (tool_id : Nat)
    (halign : atc.alignment = 0 ∨ atc.alignment = 1)
    (hcap : atc.number_of_pockets ≤ 255) :
    ((1 ≤ tool_id ∧ tool_id ≤ atc.number_of_pockets) →
      axisGet (get_tool_pos atc tool_id) atc.alignment =
        (if atc.alignment = 0 then atc.x_pocket_1 else atc.y_pocket_1) +
          ((tool_id : Rat) - 1) * atc.pocket_offset *
            (if atc.direction ≠ 0 then -1 else 1) ∧
      axisGet (get_tool_pos atc tool_id) (1 - atc.alignment) =
        (if atc.alignment = 0 then atc.y_pocket_1 else atc.x_pocket_1)) ∧
    ((tool_id = 0 ∨ atc.number_of_pockets < tool_id) →
      get_tool_pos atc tool_id = [atc.tool_setter_x, atc.tool_setter_y, 0]) := by
  constructor
  · rintro ⟨hlo, hhi⟩
    have hpocket : tool_has_pocket atc tool_id = true := by
      simp [tool_has_pocket]
      omega
    have hw : toolIdMinusOne tool_id = tool_id - 1 :=
      toolIdMinusOne_eq tool_id hlo (by omega)
    have hcast : ((tool_id - 1 : Nat) : Rat) = (tool_id : Rat) - 1 := by
      push_cast [hlo]
      ring
    rcases halign with h | h <;>
      simp [get_tool_pos, hpocket, calculate_tool_pos, h, hw, hcast,
            axisGet, axisSet]
  · intro h
    have hpocket : tool_has_pocket atc tool_id = false := by
      simp [tool_has_pocket]
      omega
    simp [get_tool_pos, hpocket, get_manual_pos]

/-- Witness for `get_tool_pos_spec`: pitch 45 from X = 0, positive
direction, tool 3 sits at X = 90 with Y at pocket-1's value, and
tool 15 (pocket count 6) maps to the manual position. -/
theorem get_tool_pos_spec_witness :
    (axisGet (get_tool_pos atcBase 3) atcBase.alignment =
        (if atcBase.alignment = 0 then atcBase.x_pocket_1 else atcBase.y_pocket_1) +
          ((3 : Rat) - 1) * atcBase.pocket_offset *
            (if atcBase.direction ≠ 0 then -1 else 1) ∧
      axisGet (get_tool_pos atcBase 3) (1 - atcBase.alignment) =
        (if atcBase.alignment = 0 then atcBase.y_pocket_1 else atcBase.x_pocket_1)) ∧
    get_tool_pos atcBase 15 = [atcBase.tool_setter_x, atcBase.tool_setter_y, 0] ∧
    get_tool_pos atcBase 3 = [90, 0, 0] :=
  ⟨(get_tool_pos_spec atcBase 3 (Or.inl rfl) (by decide)).1 ⟨by decide, by decide⟩,
   (get_tool_pos_spec atcBase 15 (Or.inl rfl) (by decide)).2 (Or.inr (by decide)),
   by norm_num [get_tool_pos, tool_has_pocket, calculate_tool_pos, toolIdMinusOne,
                axisSet, axisGet, atcBase]⟩

/-- C4: a reset while a change is in flight (pending pointer set,
pending id differing from the current id) rewrites the host's reported
tool record back to the saved current tool, reports the current tool
id as pending, clears the in-flight pointer, and in every case the
previously registered reset handler is invoked.  The disjunctive
hypothesis is the host-side invariant: either a tool table exists (the
write goes through `gc_state.tool`) or `gc_state.tool` aliases the
pending record, as grblHAL arranges when no tool table is present. -/
theorem reset_restores_previous_tool (s : RState) (p : Nat)
    (hnext : s.next_tool = some p)
    (hdiff : s.current_tool.tool_id ≠ (s.heap p).tool_id)
    (halias : s.n_tools ≠ 0 ∨ s.gc_tool = p) :
    (reset s).heap (reset s).gc_tool = s.current_tool ∧
    (reset s).tool_pending = s.current_tool.tool_id ∧
    (reset s).next_tool = none ∧
    (reset s).driver_reset_called = true ∧
    (∀ s' : RState, (reset s').driver_reset_called = true) := by
  have hall : ∀ s' : RState, (reset s').driver_reset_called = true := by
    intro s'
    cases hn : s'.next_tool <;> simp [reset, hn]
  refine ⟨?_, ?_, ?_, hall s, hall⟩ <;>
    · rcases halias with hn | hp
      · by_cases hgp : s.n_tools = 0
        · exact absurd hgp hn
        · simp [reset, hnext, hdiff, hgp, Function.update_same]
      · by_cases hgp : s.n_tools = 0 <;>
          simp [reset, hnext, hdiff, hgp, hp, Function.update_same]

/-- Witness for `reset_restores_previous_tool` at the concrete
in-flight state (current tool 3, pending tool 5). -/
theorem reset_restores_previous_tool_witness :
    (reset rstBase).heap (reset rstBase).gc_tool = rstBase.current_tool ∧
    (reset rstBase).tool_pending = rstBase.current_tool.tool_id ∧
    (reset rstBase).next_tool = none ∧
    (reset rstBase).driver_reset_called = true ∧
    (∀ s' : RState, (reset s').driver_reset_called = true) :=
  reset_restores_previous_tool rstBase 0 rfl (by decide) (Or.inl (by decide))

/-- C8: when the fast seek probe never contacts within max travel,
`set_tool` fails and both the TLO reference (value and latch flag) and
the active tool-length offset are unchanged. -/
theorem set_tool_seek_fail_spec (atc : AtcSettings) (env : Env) (s : MState)
    (hts : atc.tool_setter = true) (htool : s.current_tool.tool_id ≠ 0)
    (hline : ∀ n, env.mcLineOk n = true) (hsync : ∀ n, env.syncOk n = true)
    (hprobe : env.probeFound s.nProbe = false) :
    (set_tool atc env s).1 = false ∧
    (set_tool atc env s).2.tlo_reference_z = s.tlo_reference_z ∧
    (set_tool atc env s).2.tlo_reference_set_z = s.tlo_reference_set_z ∧
    (set_tool atc env s).2.tool_offset_z = s.tool_offset_z := by
  simp [set_tool, rapid_to_z, rapid_to_tool_setter_xy, mc_probe_cycle, mc_line,
        protocol_buffer_synchronize, hts, htool, hline, hsync, hprobe]

/-- Witness for `set_tool_seek_fail_spec`: tool setter enabled, tool 3
loaded, probe never finds contact. -/
theorem set_tool_seek_fail_spec_witness :
    (set_tool atcSetter envProbeFail stTool3).1 = false ∧
    (set_tool atcSetter envProbeFail stTool3).2.tlo_reference_z = stTool3.tlo_reference_z ∧
    (set_tool atcSetter envProbeFail stTool3).2.tlo_reference_set_z = stTool3.tlo_reference_set_z ∧
    (set_tool atcSetter envProbeFail stTool3).2.tool_offset_z = stTool3.tool_offset_z :=
  set_tool_seek_fail_spec atcSetter envProbeFail stTool3 rfl (by decide)
    (fun _ => rfl) (fun _ => rfl) rfl

/-- C3: after a successful two-stage probe with the tool setter
enabled, either no Z TLO reference existed — then the probed Z is
latched as the reference (flag set, reference reported to the host,
no offset applied) — or a reference existed — then the reference is
unchanged and the applied dynamic tool-length offset is exactly the
probed Z minus the stored reference. -/
theorem set_tool_tlo_spec (atc : AtcSettings) (env : Env) (s : MState)
    (tx ty tz : Rat) (htgt : s.target = [tx, ty, tz])
    (hts : atc.tool_setter = true) (htool : s.current_tool.tool_id ≠ 0)
    (hline : ∀ n, env.mcLineOk n = true) (hsync : ∀ n, env.syncOk n = true)
    (hp1 : env.probeFound s.nProbe = true)
    (hp2 : env.probeFound (s.nProbe + 1) = true) :
    (set_tool atc env s).1 = true ∧
    (s.tlo_reference_set_z = false →
      (set_tool atc env s).2.tlo_reference_z = env.probeZ (s.nProbe + 1) ∧
      (set_tool atc env s).2.tlo_reference_set_z = true ∧
      (set_tool atc env s).2.tool_offset_z = s.tool_offset_z ∧
      Action.reportTLOReference ∈ (set_tool atc env s).2.trace) ∧
    (s.tlo_reference_set_z = true →
      (set_tool atc env s).2.tlo_reference_z = s.tlo_reference_z ∧
      (set_tool atc env s).2.tlo_reference_set_z = true ∧
      (set_tool atc env s).2.tool_offset_z =
        env.probeZ (s.nProbe + 1) - s.tlo_reference_z ∧
      Action.setToolOffsetDynamic (env.probeZ (s.nProbe + 1) - s.tlo_reference_z) ∈
        (set_tool atc env s).2.trace) := by
  cases hset : s.tlo_reference_set_z <;>
    simp [set_tool, rapid_to_z, rapid_to_tool_setter_xy, mc_probe_cycle, mc_line,
          protocol_buffer_synchronize, gc_set_tool_offset_dynamic, axisGet, axisSet,
          hts, htool, hline, hsync, hp1, hp2, hset, htgt]

/-- Witness for `set_tool_tlo_spec`: no reference latched yet, probes
contact at Z = -42, so -42 becomes the TLO reference. -/
theorem set_tool_tlo_spec_witness :
    (set_tool atcSetter envAllOk stTool3).1 = true ∧
    (set_tool atcSetter envAllOk stTool3).2.tlo_reference_z = envAllOk.probeZ 1 ∧
    (set_tool atcSetter envAllOk stTool3).2.tlo_reference_set_z = true ∧
    Action.reportTLOReference ∈ (set_tool atcSetter envAllOk stTool3).2.trace :=
  have h := set_tool_tlo_spec atcSetter envAllOk stTool3 0 0 0 rfl rfl (by decide)
    (fun _ => rfl) (fun _ => rfl) rfl rfl
  ⟨h.1, (h.2.1 rfl).1, (h.2.1 rfl).2.1, (h.2.1 rfl).2.2.2⟩

/-- C6 (amended): when a pocketed tool is loaded with every move
accepted and every drain (including the final one) successful,
`load_tool` returns true and the pending tool record has been
committed as the current tool — whatever the recognition checks said. -/
theorem load_tool_commit_spec (atc : AtcSettings) (env : Env) (s : MState)
    (nt : Tool) (hnext : s.next_tool = some nt)
    (hpocket : tool_has_pocket atc nt.tool_id = true)
    (hline : ∀ n, env.mcLineOk n = true) (hsync : ∀ n, env.syncOk n = true) :
    (load_tool atc env s nt.tool_id).1 = true ∧
    (load_tool atc env s nt.tool_id).2.current_tool = nt := by
  have hid : nt.tool_id ≠ 0 := by
    have h := hpocket
    simp [tool_has_pocket] at h
    exact h.1
  cases hrec : atc.tool_recognition
  · simp [load_tool, hid, hpocket, hrec, rapid_to_pocket_xy, rapid_to_z, linear_to_z,
          mc_line, protocol_buffer_synchronize, spin_cw, spin_stop, commit_next_tool,
          hline, hsync, hnext]
  · cases hh1 : env.hasTool s.nHasTool
    · simp [load_tool, hid, hpocket, hrec, rapid_to_pocket_xy, rapid_to_z, linear_to_z,
            mc_line, protocol_buffer_synchronize, spin_cw, spin_stop, spindle_has_tool,
            pause, report_warning_task, commit_next_tool, hline, hsync, hnext, hh1]
    · cases hh2 : env.hasTool (s.nHasTool + 1) <;>
        simp [load_tool, hid, hpocket, hrec, rapid_to_pocket_xy, rapid_to_z, linear_to_z,
              mc_line, protocol_buffer_synchronize, spin_cw, spin_stop, spindle_has_tool,
              pause, report_warning_task, commit_next_tool, hline, hsync, hnext, hh1, hh2]

/-- Witness for `load_tool_commit_spec`: pocketed tool 2 pending, all
motion accepted, every drain clean. -/
theorem load_tool_commit_spec_witness :
    (load_tool atcBase envAllOk stNext2 (toolWithId 2).tool_id).1 = true ∧
    (load_tool atcBase envAllOk stNext2 (toolWithId 2).tool_id).2.current_tool =
      toolWithId 2 :=
  load_tool_commit_spec atcBase envAllOk stNext2 (toolWithId 2) rfl (by decide)
    (fun _ => rfl) (fun _ => rfl)

/-- C6 counterexample to the literal claim: when the final queue drain
fails (abort while draining), `load_tool` still returns true but the
pending tool was NOT committed — returning true does not imply the
current tool record equals the pending record. -/
theorem load_tool_true_without_commit :
    (load_tool atcBase envSyncFail4 stNext2 2).1 = true ∧
    (load_tool atcBase envSyncFail4 stNext2 2).2.current_tool ≠ toolWithId 2 ∧
    Action.sync false ∈ (load_tool atcBase envSyncFail4 stNext2 2).2.trace := by
  decide

/-- C5 (amended): with tool recognition enabled and a pocketed tool,
when presence is still detected at zone 1 after the first unload
attempt, exactly one re-seat retry (rapid to engage-start Z, feed to
engage Z, rise to zone 1) runs — visible as exactly two engage-feed
plunges in the whole sequence — and when presence is NOT detected
after the retry the sequence proceeds to traverse height with no pause
anywhere. -/
theorem unload_tool_retry_spec (atc : AtcSettings) (env : Env) (s : MState)
    (tx ty tz px py : Rat) (L : List Action)
    (htgt : s.target = [tx, ty, tz])
    (hpx : axisGet (get_tool_pos atc s.current_tool.tool_id) 0 = px)
    (hpy : axisGet (get_tool_pos atc s.current_tool.tool_id) 1 = py)
    (hrec : atc.tool_recognition = true)
    (hpocket : tool_has_pocket atc s.current_tool.tool_id = true)
    (hline : ∀ n, env.mcLineOk n = true) (hsync : ∀ n, env.syncOk n = true)
    (hh1 : env.hasTool s.nHasTool = true)
    (hh2 : env.hasTool (s.nHasTool + 1) = false)
    (hL : L =
      [Action.line [tx, ty, atc.z_safe_clearance] true 0, Action.sync true,
       Action.line [px, py, atc.z_safe_clearance] true 0, Action.sync true,
       Action.line [px, py, atc.z_engage + atc.z_start] true 0, Action.sync true,
       Action.spindle true true atc.unload_rpm, Action.delayMs atc.spindle_ramp_time,
       Action.line [px, py, atc.z_engage] false atc.engage_feed_rate,
       Action.line [px, py, atc.tool_recognition_z_zone_1] true 0, Action.sync true,
       Action.line [px, py, atc.z_engage + atc.z_start] true 0, Action.sync true,
       Action.line [px, py, atc.z_engage] false atc.engage_feed_rate,
       Action.line [px, py, atc.tool_recognition_z_zone_1] true 0, Action.sync true,
       Action.spindle false false 0, Action.delayMs atc.spindle_ramp_time,
       Action.line [px, py, atc.z_traverse] true 0, Action.sync true,
       Action.setToolOffsetCancel]) :
    (unload_tool atc env s).1 = true ∧
    (unload_tool atc env s).2.trace = s.trace ++ L ∧
    Action.pauseHold ∉ L ∧
    List.countP (isEngagePlunge atc) L = 2 := by
  have hid : s.current_tool.tool_id ≠ 0 := by
    have h := hpocket
    simp [tool_has_pocket] at h
    exact h.1
  subst hL
  refine ⟨?_, ?_, ?_, ?_⟩
  · simp [unload_tool, rapid_to_z, rapid_to_pocket_xy, linear_to_z, mc_line,
          protocol_buffer_synchronize, spin_ccw, spin_stop, spindle_has_tool,
          finish_unload, gc_set_tool_offset_cancel, axisSet,
          hrec, hpocket, hid, hline, hsync, hh1, hh2, htgt, hpx, hpy]
  · simp [unload_tool, rapid_to_z, rapid_to_pocket_xy, linear_to_z, mc_line,
          protocol_buffer_synchronize, spin_ccw, spin_stop, spindle_has_tool,
          finish_unload, gc_set_tool_offset_cancel, axisSet,
          hrec, hpocket, hid, hline, hsync, hh1, hh2, htgt, hpx, hpy]
  · simp
  · simp [isEngagePlunge, List.countP_cons]

/-- Witness for `unload_tool_retry_spec`: tool 3 loaded, presence still
detected once, gone after the retry. -/
theorem unload_tool_retry_spec_witness :
    (unload_tool atcRecog envRetryOnce stTool3).1 = true ∧
    (unload_tool atcRecog envRetryOnce stTool3).2.trace =
      stTool3.trace ++ unloadRetryTraceC5 ∧
    Action.pauseHold ∉ unloadRetryTraceC5 ∧
    List.countP (isEngagePlunge atcRecog) unloadRetryTraceC5 = 2 :=
  unload_tool_retry_spec atcRecog envRetryOnce stTool3 0 0 0 90 0 unloadRetryTraceC5
    rfl
    (by norm_num [get_tool_pos, tool_has_pocket, calculate_tool_pos, toolIdMinusOne,
                  axisGet, axisSet, atcRecog, atcBase, stTool3, stBase, toolWithId])
    (by norm_num [get_tool_pos, tool_has_pocket, calculate_tool_pos, toolIdMinusOne,
                  axisGet, axisSet, atcRecog, atcBase, stTool3, stBase, toolWithId])
    rfl (by decide) (fun _ => rfl) (fun _ => rfl) rfl rfl
    (by norm_num [unloadRetryTraceC5, atcRecog, atcBase])

/-- C5 counterexample to the literal claim: when presence re-appears on
the retry (tool still detected at zone 1 after the re-seat attempt),
the sequence does NOT proceed to traverse height without pausing — it
rises to safe clearance and pauses for manual removal. -/
theorem unload_tool_retry_still_present_pauses :
    (unload_tool atcRecog envToolStuck stTool3).1 = true ∧
    Action.pauseHold ∈ (unload_tool atcRecog envToolStuck stTool3).2.trace ∧
    axisGet (unload_tool atcRecog envToolStuck stTool3).2.target 2 =
      atcRecog.z_safe_clearance ∧
    atcRecog.z_safe_clearance ≠ atcRecog.z_traverse := by
  decide

end RATC
